import Mathlib

/-!
Verification of the salary-dashboard computation engine
(`client/src/lib/salary-calculator.ts` and `client/src/lib/ugc-data.ts`).

Numbers are modelled as rationals; JavaScript `Math.round x` is
`⌊x + 1/2⌋` (round half toward positive infinity).  Optional TypeScript
parameters are explicit `Option` arguments, and the breakdown records are
Lean structures mirroring the exported interfaces.
-/

namespace SalaryDashboard

/-- JavaScript `Math.round`: floor of `q + 1/2`, as a rational. -/
def jsRound (q : ℚ) : ℚ := ((⌊q + 1/2⌋ : ℤ) : ℚ)

/-- Rounding half away from zero, as the specification describes rounding.
This definition follows the spec text, for comparison with `jsRound`. -/
def roundHalfAwayFromZero (q : ℚ) : ℚ :=
  if 0 ≤ q then ((⌊q + 1/2⌋ : ℤ) : ℚ) else -((⌊-q + 1/2⌋ : ℤ) : ℚ)

/-- City classification tiers from `ugc-data.ts`. -/
inductive CityType
  | X
  | Y
  | Z
deriving DecidableEq, Repr

/-- Entry of the `HRA_RATES` table. -/
structure HraRateInfo where
  rate : ℚ
  label : String
  population : String

/-- `HRA_RATES` from `ugc-data.ts`. -/
def HRA_RATES : CityType → HraRateInfo
  | .X => ⟨30, "X-Class City", "50 Lakhs and above"⟩
  | .Y => ⟨20, "Y-Class City", "5 to 50 Lakhs"⟩
  | .Z => ⟨10, "Z-Class City", "Below 5 Lakhs"⟩

/-- One bracket of the `TA_RATES` table. -/
structure TARateBand where
  tptaCity : ℚ
  otherCity : ℚ

/-- The `TA_RATES` table shape. -/
structure TARates where
  level9Plus : TARateBand
  level3to8 : TARateBand
  level1to2 : TARateBand

/-- `TA_RATES` from `ugc-data.ts`. -/
def TA_RATES : TARates :=
  { level9Plus := ⟨7200, 3600⟩
    level3to8 := ⟨3600, 1800⟩
    level1to2 := ⟨1350, 900⟩ }

/-- `PAY_MATRIX` from `ugc-data.ts`: level string to the ordered list of
basic-pay amounts; `none` models the absence of the key. -/
def PAY_MATRIX (level : String) : Option (List ℚ) :=
  if level = "10" then some
    [57700, 59400, 61200, 63000, 64900, 66800, 68800, 70900,
     73000, 75200, 77500, 79800, 82200, 84700, 87200, 89800,
     92500, 95300, 98200, 101100, 104100, 107200, 110400, 113700,
     117100, 120600, 124200, 127900, 131700, 135700, 139800, 144000,
     148300, 152700, 157300, 162000, 166900, 171900, 177100, 182400]
  else if level = "11" then some
    [68900, 71000, 73100, 75300, 77600, 79900, 82300, 84800,
     87300, 89900, 92600, 95400, 98300, 101200, 104200, 107300,
     110500, 113800, 117200, 120700, 124300, 128000, 131800, 135800,
     139900, 144100, 148400, 152900, 157500, 162200, 167100, 172100,
     177300, 182600, 188100, 193700, 199500, 205500]
  else if level = "12" then some
    [79800, 82200, 84100, 87200, 89800, 92500, 95300, 98200,
     101100, 104100, 107200, 110400, 113700, 117100, 120600, 124200,
     127900, 131700, 135700, 139800, 144000, 148300, 152700, 157300,
     162000, 166900, 171900, 177100, 182400, 187900, 193500, 199300,
     205300, 211500]
  else if level = "13A" then some
    [131400, 135300, 139400, 143600, 147900, 152300, 156900, 161600,
     166400, 171400, 176500, 181800, 187300, 192900, 198700, 204100,
     210800, 217100]
  else if level = "14" then some
    [144200, 148500, 153000, 157600, 162300, 167200, 172200, 177400,
     182100, 188200, 193800, 199600, 205600, 211800, 218200]
  else if level = "15" then some
    [182200, 187700, 193300, 199100, 205100, 211300, 217600, 224100]
  else none

/-- `getCellAmount` from `salary-calculator.ts`: unknown level or an
out-of-range cell index yields 0. -/
def getCellAmount (level : String) (cellIndex : ℤ) : ℚ :=
  match PAY_MATRIX level with
  | Option.none => 0
  | Option.some cells =>
      if cellIndex < 0 ∨ (cells.length : ℤ) ≤ cellIndex then 0
      else cells.getD cellIndex.toNat 0

/-- Accumulate the leading run of decimal digits, stopping at the first
non-digit (the digit-consuming loop of JavaScript `parseInt`). -/
def leadingNatAux : List Char → ℕ → ℕ
  | [], acc => acc
  | c :: cs, acc =>
      if c.isDigit then leadingNatAux cs (acc * 10 + (c.toNat - 48)) else acc

/-- Leading decimal number of a character list; `none` when the list does
not start with a digit (JavaScript `parseInt` returning NaN). -/
def leadingNat (cs : List Char) : Option ℕ :=
  match cs with
  | [] => Option.none
  | c :: _ => if c.isDigit then Option.some (leadingNatAux cs 0) else Option.none

/-- JavaScript `parseInt` on a string with radix 10: optional sign then
leading digits; `none` models NaN. -/
def jsParseInt (s : String) : Option ℤ :=
  let cs := s.toList.dropWhile (fun c => c = ' ')
  match cs with
  | '-' :: rest => (leadingNat rest).map (fun n => -(n : ℤ))
  | '+' :: rest => (leadingNat rest).map (fun n => (n : ℤ))
  | rest => (leadingNat rest).map (fun n => (n : ℤ))

/-- `calculateDA` from `salary-calculator.ts`. -/
def calculateDA (basic : ℚ) (daPercent : ℚ) : ℚ :=
  jsRound (basic * (daPercent / 100))

/-- HRA payment mode tag (`'percent' | 'lumpsum' | 'none'`). -/
inductive HraMode
  | percent
  | lumpsum
  | hraNone
deriving DecidableEq, Repr

/-- HRA mode selector stored in settings (`'percent' | 'lumpsum'`). -/
inductive SettingsHraMode
  | percent
  | lumpsum
deriving DecidableEq, Repr

/-- `HraConfig` from `settings-context`, as consumed by `calculateHRA`. -/
structure HraConfig where
  providingHousing : Bool
  stillProvideHra : Bool
  hraMode : SettingsHraMode
  lumpSumValue : ℚ

/-- `calculateHRA` from `salary-calculator.ts`: housing provided without
continuing HRA gives 0/none; lump-sum mode gives the configured lump sum;
otherwise the city-rate percentage of basic. -/
def calculateHRA (basic : ℚ) (cityType : CityType) (hraConfig : Option HraConfig) :
    ℚ × HraMode :=
  match hraConfig with
  | Option.some c =>
      if c.providingHousing && !c.stillProvideHra then (0, HraMode.hraNone)
      else if c.hraMode = SettingsHraMode.lumpsum then (c.lumpSumValue, HraMode.lumpsum)
      else (jsRound (basic * ((HRA_RATES cityType).rate / 100)), HraMode.percent)
  | Option.none => (jsRound (basic * ((HRA_RATES cityType).rate / 100)), HraMode.percent)

/-- `calculateTA` from `salary-calculator.ts`: bracket on the numeric level
(`"13A"` counts as 13, NaN falls to the lowest bracket), base amount by
city-tier flag, plus DA on that base. -/
def calculateTA (level : String) (daPercent : ℚ) (isTPTACity : Bool) : ℚ :=
  let levelNum : Option ℤ :=
    if level = "13A" then Option.some 13 else jsParseInt level
  let taBase : ℚ :=
    match levelNum with
    | Option.some n =>
        if 9 ≤ n then
          (if isTPTACity then TA_RATES.level9Plus.tptaCity else TA_RATES.level9Plus.otherCity)
        else if 3 ≤ n then
          (if isTPTACity then TA_RATES.level3to8.tptaCity else TA_RATES.level3to8.otherCity)
        else
          (if isTPTACity then TA_RATES.level1to2.tptaCity else TA_RATES.level1to2.otherCity)
    | Option.none =>
        if isTPTACity then TA_RATES.level1to2.tptaCity else TA_RATES.level1to2.otherCity
  let daOnTA := jsRound (taBase * (daPercent / 100))
  taBase + daOnTA

/-- `UGCSalaryBreakdown` record. -/
structure UGCSalaryBreakdown where
  basic : ℚ
  da : ℚ
  hra : ℚ
  hraMode : HraMode
  ta : ℚ
  specialAllowance : ℚ
  totalMonthly : ℚ
  totalAnnual : ℚ
deriving DecidableEq, Repr

/-- `calculateUGCSalary` from `salary-calculator.ts`. -/
def calculateUGCSalary (basic : ℚ) (daPercent : ℚ) (cityType : CityType)
    (level : String) (specialAllowance : ℚ) (isTPTACity : Bool)
    (hraConfig : Option HraConfig) : UGCSalaryBreakdown :=
  let da := calculateDA basic daPercent
  let hraResult := calculateHRA basic cityType hraConfig
  let ta := calculateTA level daPercent isTPTACity
  let totalMonthly := basic + da + hraResult.1 + ta + specialAllowance
  { basic := basic
    da := da
    hra := hraResult.1
    hraMode := hraResult.2
    ta := ta
    specialAllowance := specialAllowance
    totalMonthly := totalMonthly
    totalAnnual := totalMonthly * 12 }

/-- `Benefits` bundle from `salary-calculator.ts`. -/
structure Benefits where
  housing : ℚ
  professionalDev : ℚ
  ppfPercent : ℚ
  gratuityPercent : ℚ
  healthInsurance : ℚ

/-- `BenefitsBreakdown` record. -/
structure BenefitsBreakdown where
  housing : ℚ
  professionalDev : ℚ
  ppfAmount : ℚ
  gratuityAmount : ℚ
  healthInsurance : ℚ
  totalMonthly : ℚ
  totalAnnual : ℚ

/-- `calculateBenefits` from `salary-calculator.ts`. -/
def calculateBenefits (basic : ℚ) (benefits : Benefits) : BenefitsBreakdown :=
  let ppfAmount := jsRound (basic * (benefits.ppfPercent / 100))
  let gratuityAmount := jsRound (basic * (benefits.gratuityPercent / 100))
  let totalMonthly := benefits.housing + benefits.professionalDev + ppfAmount +
    gratuityAmount + benefits.healthInsurance
  { housing := benefits.housing
    professionalDev := benefits.professionalDev
    ppfAmount := ppfAmount
    gratuityAmount := gratuityAmount
    healthInsurance := benefits.healthInsurance
    totalMonthly := totalMonthly
    totalAnnual := totalMonthly * 12 }

/-- `FinancialStrategy` from `ugc-data.ts`. -/
inductive FinancialStrategy
  | multiplier
  | premium
  | both
  | higher
  | lower
deriving DecidableEq, Repr

/-- `MultiplierMethod` from `ugc-data.ts`. -/
inductive MultiplierMethod
  | methodA
  | methodB
deriving DecidableEq, Repr

/-- `EnforcementMode` from `settings-context`. -/
inductive EnforcementMode
  | soft
  | hard
deriving DecidableEq, Repr

/-- `PositionPremiumRange` from `settings-context`. -/
structure PositionPremiumRange where
  minPremium : ℚ
  maxPremium : ℚ

/-- `PositionSalaryCap` from `settings-context`. -/
structure PositionSalaryCap where
  minWPUSalaryAnnual : ℚ
  maxWPUSalaryAnnual : ℚ
  maxWPUCTCAnnual : ℚ

/-- `EnforcementStatus` record. -/
structure EnforcementStatus where
  salaryCapped : Bool
  salaryBelowMin : Bool
  ctcCapped : Bool
  premiumBelowMin : Bool
  premiumAboveMax : Bool
  originalSalaryAnnual : ℚ
  originalCTCAnnual : ℚ

/-- `WPUSalaryBreakdown` record. -/
structure WPUSalaryBreakdown where
  basic : ℚ
  da : ℚ
  hra : ℚ
  hraMode : HraMode
  ta : ℚ
  specialAllowance : ℚ
  multiplierBonus : ℚ
  premiumMonthly : ℚ
  totalSalaryMonthly : ℚ
  totalSalaryAnnual : ℚ
  benefits : BenefitsBreakdown
  totalCTCMonthly : ℚ
  totalCTCAnnual : ℚ
  method : MultiplierMethod
  strategy : FinancialStrategy
  enforcement : EnforcementStatus

/-- The local mutable variables `wpuBasic`/`wpuDA`/`wpuHRA`/`hraMode`/
`wpuTA`/`multiplierBonus` of `calculateWPUSalary` after the method branch. -/
structure MethodComponents where
  wpuBasic : ℚ
  wpuDA : ℚ
  wpuHRA : ℚ
  hraMode : HraMode
  wpuTA : ℚ
  multiplierBonus : ℚ

/-- Method-dependent components of `calculateWPUSalary` (lines 205-222):
method A carries the baseline figures (HRA recomputed from the enhanced
config) and itemizes the multiplicative bonus; method B scales basic and
recomputes DA/HRA/TA from it, with bonus 0. -/
def wpuMethodComponents (ugcSalary : UGCSalaryBreakdown) (multiplier : ℚ)
    (method : MultiplierMethod) (daPercent : ℚ) (cityType : CityType) (level : String)
    (specialAllowance : ℚ) (isTPTACity : Bool) (hraConfig : Option HraConfig) :
    MethodComponents :=
  match method with
  | MultiplierMethod.methodA =>
      let hraResult := calculateHRA ugcSalary.basic cityType hraConfig
      let baseSalaryForMultiplier :=
        ugcSalary.basic + ugcSalary.da + hraResult.1 + ugcSalary.ta + specialAllowance
      { wpuBasic := ugcSalary.basic
        wpuDA := ugcSalary.da
        wpuHRA := hraResult.1
        hraMode := hraResult.2
        wpuTA := ugcSalary.ta
        multiplierBonus := jsRound (baseSalaryForMultiplier * (multiplier - 1)) }
  | MultiplierMethod.methodB =>
      let wpuBasic := jsRound (ugcSalary.basic * multiplier)
      let hraResult := calculateHRA wpuBasic cityType hraConfig
      { wpuBasic := wpuBasic
        wpuDA := calculateDA wpuBasic daPercent
        wpuHRA := hraResult.1
        hraMode := hraResult.2
        wpuTA := calculateTA level daPercent isTPTACity
        multiplierBonus := 0 }

/-- State after the strategy `switch` of `calculateWPUSalary`:
`totalSalaryMonthly`, the surviving line items, and the (possibly reset)
components. -/
structure StrategyOutcome where
  totalSalaryMonthly : ℚ
  actualMultiplierBonus : ℚ
  actualPremiumMonthly : ℚ
  comps : MethodComponents

/-- The components reset to the baseline values (the `methodB` arms of the
`premium`/`higher`/`lower` cases). -/
def resetToBaseline (comps : MethodComponents) (ugcSalary : UGCSalaryBreakdown) :
    MethodComponents :=
  { comps with
    wpuBasic := ugcSalary.basic
    wpuDA := ugcSalary.da
    wpuHRA := ugcSalary.hra
    hraMode := ugcSalary.hraMode
    wpuTA := ugcSalary.ta }

/-- Strategy resolution of `calculateWPUSalary` (lines 224-285). -/
def wpuStrategyOutcome (ugcSalary : UGCSalaryBreakdown) (multiplier annualPremium : ℚ)
    (strategy : FinancialStrategy) (method : MultiplierMethod) (daPercent : ℚ)
    (cityType : CityType) (level : String) (specialAllowance : ℚ) (isTPTACity : Bool)
    (hraConfig : Option HraConfig) : StrategyOutcome :=
  let comps := wpuMethodComponents ugcSalary multiplier method daPercent cityType level
    specialAllowance isTPTACity hraConfig
  let baseSalaryMonthly := comps.wpuBasic + comps.wpuDA + comps.wpuHRA + comps.wpuTA +
    specialAllowance + comps.multiplierBonus
  let premiumMonthly := jsRound (annualPremium / 12)
  let multiplierResult := baseSalaryMonthly
  let premiumResult := ugcSalary.totalMonthly + premiumMonthly
  match strategy with
  | FinancialStrategy.multiplier =>
      { totalSalaryMonthly := multiplierResult
        actualMultiplierBonus := comps.multiplierBonus
        actualPremiumMonthly := 0
        comps := comps }
  | FinancialStrategy.premium =>
      { totalSalaryMonthly := premiumResult
        actualMultiplierBonus := 0
        actualPremiumMonthly := premiumMonthly
        comps :=
          match method with
          | MultiplierMethod.methodB => resetToBaseline comps ugcSalary
          | MultiplierMethod.methodA => comps }
  | FinancialStrategy.both =>
      { totalSalaryMonthly := baseSalaryMonthly + premiumMonthly
        actualMultiplierBonus := comps.multiplierBonus
        actualPremiumMonthly := premiumMonthly
        comps := comps }
  | FinancialStrategy.higher =>
      if premiumResult ≤ multiplierResult then
        { totalSalaryMonthly := multiplierResult
          actualMultiplierBonus := comps.multiplierBonus
          actualPremiumMonthly := 0
          comps := comps }
      else
        { totalSalaryMonthly := premiumResult
          actualMultiplierBonus := 0
          actualPremiumMonthly := premiumMonthly
          comps :=
            match method with
            | MultiplierMethod.methodB => resetToBaseline comps ugcSalary
            | MultiplierMethod.methodA => comps }
  | FinancialStrategy.lower =>
      if multiplierResult ≤ premiumResult then
        { totalSalaryMonthly := multiplierResult
          actualMultiplierBonus := comps.multiplierBonus
          actualPremiumMonthly := 0
          comps := comps }
      else
        { totalSalaryMonthly := premiumResult
          actualMultiplierBonus := 0
          actualPremiumMonthly := premiumMonthly
          comps :=
            match method with
            | MultiplierMethod.methodB => resetToBaseline comps ugcSalary
            | MultiplierMethod.methodA => comps }

/-- Result of the salary-cap block of `calculateWPUSalary` (lines 309-335). -/
structure EnforceOutcome where
  salaryCapped : Bool
  salaryBelowMin : Bool
  ctcCapped : Bool
  totalSalaryMonthly : ℚ
  totalCTCMonthly : ℚ

/-- The salary-cap flags and (in hard mode) clamping of
`calculateWPUSalary` (lines 309-335), applied to the pre-enforcement
monthly salary `pre` and the benefits breakdown. -/
def enforceCaps (pre : ℚ) (bb : BenefitsBreakdown) (enforcementMode : EnforcementMode)
    (salaryCap : Option PositionSalaryCap) : EnforceOutcome :=
  let totalCTC := pre + bb.totalMonthly
  match salaryCap with
  | Option.none =>
      { salaryCapped := false, salaryBelowMin := false, ctcCapped := false,
        totalSalaryMonthly := pre, totalCTCMonthly := totalCTC }
  | Option.some cap =>
      let salaryBelowMin := decide (0 < cap.minWPUSalaryAnnual ∧ pre * 12 < cap.minWPUSalaryAnnual)
      let salaryCapped := decide (0 < cap.maxWPUSalaryAnnual ∧ cap.maxWPUSalaryAnnual < pre * 12)
      let computedMaxCTC : ℚ :=
        if 0 < cap.maxWPUCTCAnnual then cap.maxWPUCTCAnnual
        else if 0 < cap.maxWPUSalaryAnnual then cap.maxWPUSalaryAnnual + bb.totalAnnual
        else 0
      let ctcCapped := decide (0 < computedMaxCTC ∧ computedMaxCTC < totalCTC * 12)
      match enforcementMode with
      | EnforcementMode.soft =>
          { salaryCapped := salaryCapped, salaryBelowMin := salaryBelowMin,
            ctcCapped := ctcCapped, totalSalaryMonthly := pre, totalCTCMonthly := totalCTC }
      | EnforcementMode.hard =>
          let tsm := if 0 < cap.maxWPUSalaryAnnual ∧ cap.maxWPUSalaryAnnual < pre * 12
            then jsRound (cap.maxWPUSalaryAnnual / 12) else pre
          let tctc := tsm + bb.totalMonthly
          if 0 < computedMaxCTC ∧ computedMaxCTC < tctc * 12 then
            { salaryCapped := salaryCapped, salaryBelowMin := salaryBelowMin,
              ctcCapped := true, totalSalaryMonthly := tsm,
              totalCTCMonthly := jsRound (computedMaxCTC / 12) }
          else
            { salaryCapped := salaryCapped, salaryBelowMin := salaryBelowMin,
              ctcCapped := ctcCapped, totalSalaryMonthly := tsm, totalCTCMonthly := tctc }

/-- The premium-range flags of `calculateWPUSalary` (lines 300-307). -/
def premiumFlags (annualPremium : ℚ) (premiumRange : Option PositionPremiumRange) :
    Bool × Bool :=
  match premiumRange with
  | Option.none => (false, false)
  | Option.some r =>
      (decide (0 < r.minPremium ∧ annualPremium < r.minPremium),
       decide (0 < r.maxPremium ∧ r.maxPremium < annualPremium))

/-- `calculateWPUSalary` from `salary-calculator.ts`. -/
def calculateWPUSalary (ugcSalary : UGCSalaryBreakdown) (multiplier annualPremium : ℚ)
    (strategy : FinancialStrategy) (method : MultiplierMethod) (benefits : Benefits)
    (daPercent : ℚ) (cityType : CityType) (level : String) (specialAllowance : ℚ)
    (isTPTACity : Bool) (hraConfig : Option HraConfig) (enforcementMode : EnforcementMode)
    (premiumRange : Option PositionPremiumRange) (salaryCap : Option PositionSalaryCap) :
    WPUSalaryBreakdown :=
  let stratOut := wpuStrategyOutcome ugcSalary multiplier annualPremium strategy method
    daPercent cityType level specialAllowance isTPTACity hraConfig
  let benefitsBreakdown := calculateBenefits stratOut.comps.wpuBasic benefits
  let originalSalaryAnnual := stratOut.totalSalaryMonthly * 12
  let originalCTCAnnual := (stratOut.totalSalaryMonthly + benefitsBreakdown.totalMonthly) * 12
  let flags := premiumFlags annualPremium premiumRange
  let capOut := enforceCaps stratOut.totalSalaryMonthly benefitsBreakdown enforcementMode salaryCap
  { basic := stratOut.comps.wpuBasic
    da := stratOut.comps.wpuDA
    hra := stratOut.comps.wpuHRA
    hraMode := stratOut.comps.hraMode
    ta := stratOut.comps.wpuTA
    specialAllowance := specialAllowance
    multiplierBonus := stratOut.actualMultiplierBonus
    premiumMonthly := stratOut.actualPremiumMonthly
    totalSalaryMonthly := capOut.totalSalaryMonthly
    totalSalaryAnnual := capOut.totalSalaryMonthly * 12
    benefits := benefitsBreakdown
    totalCTCMonthly := capOut.totalCTCMonthly
    totalCTCAnnual := capOut.totalCTCMonthly * 12
    method := method
    strategy := strategy
    enforcement :=
      { salaryCapped := capOut.salaryCapped
        salaryBelowMin := capOut.salaryBelowMin
        ctcCapped := capOut.ctcCapped
        premiumBelowMin := flags.1
        premiumAboveMax := flags.2
        originalSalaryAnnual := originalSalaryAnnual
        originalCTCAnnual := originalCTCAnnual } }

/-- `ComparisonResult` record. -/
structure ComparisonResult where
  ugc : UGCSalaryBreakdown
  wpu : WPUSalaryBreakdown
  premiumAmountMonthly : ℚ
  premiumAmountAnnual : ℚ
  premiumPercentage : ℚ

/-- `calculateComparison` from `salary-calculator.ts`: the baseline is
computed without the housing config; the percentage is guarded on
`ugc.totalMonthly > 0`. -/
def calculateComparison (level : String) (cellIndex : ℤ) (daPercent : ℚ)
    (cityType : CityType) (multiplier annualPremium : ℚ) (strategy : FinancialStrategy)
    (method : MultiplierMethod) (benefits : Benefits) (specialAllowance : ℚ)
    (isTPTACity : Bool) (hraConfig : Option HraConfig) (enforcementMode : EnforcementMode)
    (premiumRange : Option PositionPremiumRange) (salaryCap : Option PositionSalaryCap) :
    ComparisonResult :=
  let basic := getCellAmount level cellIndex
  let ugc := calculateUGCSalary basic daPercent cityType level specialAllowance
    isTPTACity Option.none
  let wpu := calculateWPUSalary ugc multiplier annualPremium strategy method benefits
    daPercent cityType level specialAllowance isTPTACity hraConfig enforcementMode
    premiumRange salaryCap
  let premiumAmountMonthly := wpu.totalCTCMonthly - ugc.totalMonthly
  let premiumAmountAnnual := premiumAmountMonthly * 12
  let premiumPercentage :=
    if 0 < ugc.totalMonthly then premiumAmountMonthly / ugc.totalMonthly * 100 else 0
  { ugc := ugc
    wpu := wpu
    premiumAmountMonthly := premiumAmountMonthly
    premiumAmountAnnual := premiumAmountAnnual
    premiumPercentage := premiumPercentage }

/-! ### Helper lemmas -/

theorem enforceCaps_totalSalaryMonthly_soft (pre : ℚ) (bb : BenefitsBreakdown)
    (salaryCap : Option PositionSalaryCap) :
    (enforceCaps pre bb EnforcementMode.soft salaryCap).totalSalaryMonthly = pre := by
  cases salaryCap <;> rfl

theorem enforceCaps_totalSalaryMonthly_hard (pre : ℚ) (bb : BenefitsBreakdown)
    (cap : PositionSalaryCap) :
    (enforceCaps pre bb EnforcementMode.hard (Option.some cap)).totalSalaryMonthly =
      if 0 < cap.maxWPUSalaryAnnual ∧ cap.maxWPUSalaryAnnual < pre * 12
      then jsRound (cap.maxWPUSalaryAnnual / 12) else pre := by
  simp only [enforceCaps, apply_ite EnforceOutcome.totalSalaryMonthly, ite_self]

theorem enforceCaps_hard_capped (pre : ℚ) (bb : BenefitsBreakdown) (cap : PositionSalaryCap)
    (h1 : 0 < cap.maxWPUSalaryAnnual) (h2 : cap.maxWPUSalaryAnnual < pre * 12) :
    (enforceCaps pre bb EnforcementMode.hard (Option.some cap)).salaryCapped = true ∧
    (enforceCaps pre bb EnforcementMode.hard (Option.some cap)).totalSalaryMonthly =
      jsRound (cap.maxWPUSalaryAnnual / 12) := by
  constructor
  · simp only [enforceCaps, apply_ite EnforceOutcome.salaryCapped, ite_self,
      decide_eq_true_eq]
    exact ⟨h1, h2⟩
  · rw [enforceCaps_totalSalaryMonthly_hard, if_pos ⟨h1, h2⟩]

theorem int_le_jsRound (z : ℤ) (x : ℚ) (h : (z : ℚ) ≤ x) : (z : ℚ) ≤ jsRound x := by
  unfold jsRound
  have hz : z ≤ ⌊x + 1 / 2⌋ := Int.le_floor.mpr (by linarith)
  exact_mod_cast hz

theorem ite_lower_le_ite_higher (m p : ℚ) :
    (if m ≤ p then m else p) ≤ (if p ≤ m then m else p) := by
  split <;> split <;> linarith

theorem strategyOutcome_lower_le_higher (ugcSalary : UGCSalaryBreakdown)
    (multiplier annualPremium : ℚ) (method : MultiplierMethod) (daPercent : ℚ)
    (cityType : CityType) (level : String) (specialAllowance : ℚ) (isTPTACity : Bool)
    (hraConfig : Option HraConfig) :
    (wpuStrategyOutcome ugcSalary multiplier annualPremium FinancialStrategy.lower method
      daPercent cityType level specialAllowance isTPTACity hraConfig).totalSalaryMonthly ≤
    (wpuStrategyOutcome ugcSalary multiplier annualPremium FinancialStrategy.higher method
      daPercent cityType level specialAllowance isTPTACity hraConfig).totalSalaryMonthly := by
  simp only [wpuStrategyOutcome, apply_ite StrategyOutcome.totalSalaryMonthly]
  exact ite_lower_le_ite_higher _ _

/-! ### Claim theorems -/

/-- C1: for every input to the enhanced salary calculator, strategy
`multiplier` reports `premiumMonthly = 0`; strategy `premium` reports
`multiplierBonus = 0` and under `methodB` returns basic/DA/HRA/TA/hraMode
equal to the baseline breakdown's fields. -/
theorem wpu_strategy_reported_line_items (ugcSalary : UGCSalaryBreakdown)
    (multiplier annualPremium : ℚ) (method : MultiplierMethod) (benefits : Benefits)
    (daPercent : ℚ) (cityType : CityType) (level : String) (specialAllowance : ℚ)
    (isTPTACity : Bool) (hraConfig : Option HraConfig) (enforcementMode : EnforcementMode)
    (premiumRange : Option PositionPremiumRange) (salaryCap : Option PositionSalaryCap) :
    (calculateWPUSalary ugcSalary multiplier annualPremium FinancialStrategy.multiplier
      method benefits daPercent cityType level specialAllowance isTPTACity hraConfig
      enforcementMode premiumRange salaryCap).premiumMonthly = 0
    ∧ (calculateWPUSalary ugcSalary multiplier annualPremium FinancialStrategy.premium
      method benefits daPercent cityType level specialAllowance isTPTACity hraConfig
      enforcementMode premiumRange salaryCap).multiplierBonus = 0
    ∧ (calculateWPUSalary ugcSalary multiplier annualPremium FinancialStrategy.premium
      MultiplierMethod.methodB benefits daPercent cityType level specialAllowance isTPTACity
      hraConfig enforcementMode premiumRange salaryCap).basic = ugcSalary.basic
    ∧ (calculateWPUSalary ugcSalary multiplier annualPremium FinancialStrategy.premium
      MultiplierMethod.methodB benefits daPercent cityType level specialAllowance isTPTACity
      hraConfig enforcementMode premiumRange salaryCap).da = ugcSalary.da
    ∧ (calculateWPUSalary ugcSalary multiplier annualPremium FinancialStrategy.premium
      MultiplierMethod.methodB benefits daPercent cityType level specialAllowance isTPTACity
      hraConfig enforcementMode premiumRange salaryCap).hra = ugcSalary.hra
    ∧ (calculateWPUSalary ugcSalary multiplier annualPremium FinancialStrategy.premium
      MultiplierMethod.methodB benefits daPercent cityType level specialAllowance isTPTACity
      hraConfig enforcementMode premiumRange salaryCap).ta = ugcSalary.ta
    ∧ (calculateWPUSalary ugcSalary multiplier annualPremium FinancialStrategy.premium
      MultiplierMethod.methodB benefits daPercent cityType level specialAllowance isTPTACity
      hraConfig enforcementMode premiumRange salaryCap).hraMode = ugcSalary.hraMode :=
  ⟨rfl, rfl, rfl, rfl, rfl, rfl, rfl⟩

/-- C3: the baseline calculator on basic 57700 (level "10" cell 0), DA 58%,
city Y, level "10", no special allowance, non-TPTA city, no housing config
returns DA 33466, HRA 11540 in percent mode, TA 5688, total monthly 108394
and total annual 1300728. -/
theorem ugc_scenario_level10_cell0 :
    getCellAmount "10" 0 = 57700 ∧
    calculateUGCSalary 57700 58 CityType.Y "10" 0 false Option.none =
      { basic := 57700, da := 33466, hra := 11540, hraMode := HraMode.percent,
        ta := 5688, specialAllowance := 0, totalMonthly := 108394,
        totalAnnual := 1300728 } := by
  constructor
  · norm_num +decide [getCellAmount, PAY_MATRIX]
  · norm_num +decide [calculateUGCSalary, calculateDA, calculateHRA, calculateTA,
      jsRound, jsParseInt, leadingNat, leadingNatAux, HRA_RATES, TA_RATES,
      UGCSalaryBreakdown.mk.injEq]

/-- C4: in soft enforcement mode the returned monthly totals are the
pre-enforcement computed values, so the returned annual totals equal the
recorded original (pre-enforcement) annual values; enforcement only sets
flags. -/
theorem wpu_soft_mode_preserves_totals (ugcSalary : UGCSalaryBreakdown)
    (multiplier annualPremium : ℚ) (strategy : FinancialStrategy)
    (method : MultiplierMethod) (benefits : Benefits) (daPercent : ℚ)
    (cityType : CityType) (level : String) (specialAllowance : ℚ) (isTPTACity : Bool)
    (hraConfig : Option HraConfig) (premiumRange : Option PositionPremiumRange)
    (salaryCap : Option PositionSalaryCap) :
    (calculateWPUSalary ugcSalary multiplier annualPremium strategy method benefits
      daPercent cityType level specialAllowance isTPTACity hraConfig
      EnforcementMode.soft premiumRange salaryCap).totalSalaryMonthly =
      (wpuStrategyOutcome ugcSalary multiplier annualPremium strategy method daPercent
        cityType level specialAllowance isTPTACity hraConfig).totalSalaryMonthly
    ∧ (calculateWPUSalary ugcSalary multiplier annualPremium strategy method benefits
      daPercent cityType level specialAllowance isTPTACity hraConfig
      EnforcementMode.soft premiumRange salaryCap).totalCTCMonthly =
      (wpuStrategyOutcome ugcSalary multiplier annualPremium strategy method daPercent
        cityType level specialAllowance isTPTACity hraConfig).totalSalaryMonthly +
      (calculateBenefits (wpuStrategyOutcome ugcSalary multiplier annualPremium strategy
        method daPercent cityType level specialAllowance isTPTACity
        hraConfig).comps.wpuBasic benefits).totalMonthly
    ∧ (calculateWPUSalary ugcSalary multiplier annualPremium strategy method benefits
      daPercent cityType level specialAllowance isTPTACity hraConfig
      EnforcementMode.soft premiumRange salaryCap).totalSalaryAnnual =
      (calculateWPUSalary ugcSalary multiplier annualPremium strategy method benefits
        daPercent cityType level specialAllowance isTPTACity hraConfig
        EnforcementMode.soft premiumRange salaryCap).enforcement.originalSalaryAnnual
    ∧ (calculateWPUSalary ugcSalary multiplier annualPremium strategy method benefits
      daPercent cityType level specialAllowance isTPTACity hraConfig
      EnforcementMode.soft premiumRange salaryCap).totalCTCAnnual =
      (calculateWPUSalary ugcSalary multiplier annualPremium strategy method benefits
        daPercent cityType level specialAllowance isTPTACity hraConfig
        EnforcementMode.soft premiumRange salaryCap).enforcement.originalCTCAnnual := by
  cases salaryCap <;> exact ⟨rfl, rfl, rfl, rfl⟩

/-- C8: `getCellAmount` returns 0 for an unknown level, a negative cell
index, or a cell index at or beyond the number of cells for the level. -/
theorem getCellAmount_invalid_returns_zero (level : String) (cellIndex : ℤ)
    (h : PAY_MATRIX level = Option.none ∨ cellIndex < 0 ∨
      ∃ cells, PAY_MATRIX level = Option.some cells ∧ (cells.length : ℤ) ≤ cellIndex) :
    getCellAmount level cellIndex = 0 := by
  unfold getCellAmount
  rcases h with h | h | ⟨cells, hc, hlen⟩
  · rw [h]
  · cases hm : PAY_MATRIX level <;> simp [h]
  · rw [hc]
    simp [hlen]

/-- Witness for C8 at the unknown level "99". -/
theorem getCellAmount_invalid_returns_zero_witness : getCellAmount "99" 0 = 0 :=
  getCellAmount_invalid_returns_zero "99" 0 (Or.inl (by simp +decide [PAY_MATRIX]))

/-- C9: the comparison result always satisfies
`premiumAmountAnnual = premiumAmountMonthly * 12` with
`premiumAmountMonthly = wpu.totalCTCMonthly - ugc.totalMonthly`. -/
theorem comparison_premium_round_trip (level : String) (cellIndex : ℤ) (daPercent : ℚ)
    (cityType : CityType) (multiplier annualPremium : ℚ) (strategy : FinancialStrategy)
    (method : MultiplierMethod) (benefits : Benefits) (specialAllowance : ℚ)
    (isTPTACity : Bool) (hraConfig : Option HraConfig) (enforcementMode : EnforcementMode)
    (premiumRange : Option PositionPremiumRange) (salaryCap : Option PositionSalaryCap) :
    (calculateComparison level cellIndex daPercent cityType multiplier annualPremium
      strategy method benefits specialAllowance isTPTACity hraConfig enforcementMode
      premiumRange salaryCap).premiumAmountAnnual =
    (calculateComparison level cellIndex daPercent cityType multiplier annualPremium
      strategy method benefits specialAllowance isTPTACity hraConfig enforcementMode
      premiumRange salaryCap).premiumAmountMonthly * 12
    ∧ (calculateComparison level cellIndex daPercent cityType multiplier annualPremium
      strategy method benefits specialAllowance isTPTACity hraConfig enforcementMode
      premiumRange salaryCap).premiumAmountMonthly =
    (calculateComparison level cellIndex daPercent cityType multiplier annualPremium
      strategy method benefits specialAllowance isTPTACity hraConfig enforcementMode
      premiumRange salaryCap).wpu.totalCTCMonthly -
    (calculateComparison level cellIndex daPercent cityType multiplier annualPremium
      strategy method benefits specialAllowance isTPTACity hraConfig enforcementMode
      premiumRange salaryCap).ugc.totalMonthly :=
  ⟨rfl, rfl⟩

/-- C10: the comparison orchestrator never passes the housing configuration
to the baseline calculation: two calls differing only in the housing config
return identical baseline breakdowns, and the baseline HRA mode is always
`percent`. -/
theorem comparison_baseline_ignores_housing_config (level : String) (cellIndex : ℤ)
    (daPercent : ℚ) (cityType : CityType) (multiplier annualPremium : ℚ)
    (strategy : FinancialStrategy) (method : MultiplierMethod) (benefits : Benefits)
    (specialAllowance : ℚ) (isTPTACity : Bool) (hraConfig1 hraConfig2 : Option HraConfig)
    (enforcementMode : EnforcementMode) (premiumRange : Option PositionPremiumRange)
    (salaryCap : Option PositionSalaryCap) :
    (calculateComparison level cellIndex daPercent cityType multiplier annualPremium
      strategy method benefits specialAllowance isTPTACity hraConfig1 enforcementMode
      premiumRange salaryCap).ugc =
    (calculateComparison level cellIndex daPercent cityType multiplier annualPremium
      strategy method benefits specialAllowance isTPTACity hraConfig2 enforcementMode
      premiumRange salaryCap).ugc
    ∧ (calculateComparison level cellIndex daPercent cityType multiplier annualPremium
      strategy method benefits specialAllowance isTPTACity hraConfig1 enforcementMode
      premiumRange salaryCap).ugc.hraMode = HraMode.percent :=
  ⟨rfl, rfl⟩

/-- C2 (counterexample): with hard mode, `maxWPUSalaryAnnual = 2300000` and a
pre-clamp annual salary of 2600004, the flag is set but the final annual
salary is `round(2300000/12) * 12 = 2300004`, not the configured maximum. -/
theorem wpu_hard_cap_annual_not_exact :
    (calculateWPUSalary ⟨0, 0, 0, HraMode.percent, 0, 0, 216667, 0⟩ 1 0
      FinancialStrategy.premium MultiplierMethod.methodA ⟨0, 0, 0, 0, 0⟩ 0 CityType.Z
      "10" 0 false Option.none EnforcementMode.hard Option.none
      (Option.some ⟨0, 2300000, 0⟩)).enforcement.originalSalaryAnnual = 2600004
    ∧ (calculateWPUSalary ⟨0, 0, 0, HraMode.percent, 0, 0, 216667, 0⟩ 1 0
      FinancialStrategy.premium MultiplierMethod.methodA ⟨0, 0, 0, 0, 0⟩ 0 CityType.Z
      "10" 0 false Option.none EnforcementMode.hard Option.none
      (Option.some ⟨0, 2300000, 0⟩)).enforcement.salaryCapped = true
    ∧ (calculateWPUSalary ⟨0, 0, 0, HraMode.percent, 0, 0, 216667, 0⟩ 1 0
      FinancialStrategy.premium MultiplierMethod.methodA ⟨0, 0, 0, 0, 0⟩ 0 CityType.Z
      "10" 0 false Option.none EnforcementMode.hard Option.none
      (Option.some ⟨0, 2300000, 0⟩)).totalSalaryAnnual = 2300004
    ∧ (2300004 : ℚ) ≠ 2300000 := by
  refine ⟨?_, ?_, ?_, by norm_num⟩ <;>
  norm_num +decide [calculateWPUSalary, wpuStrategyOutcome, wpuMethodComponents,
    calculateDA, calculateHRA, jsRound, HRA_RATES, enforceCaps, calculateBenefits,
    decide_eq_true_eq]

/-- C2 (amended): with hard mode and a positive `maxWPUSalaryAnnual`, if the
pre-clamp annual salary exceeds the cap then `salaryCapped` is set and the
final annual salary is `round(maxWPUSalaryAnnual/12) * 12` (equal to the cap
exactly only when the cap is divisible by 12). -/
theorem wpu_hard_cap_clamps_to_rounded_max (ugcSalary : UGCSalaryBreakdown)
    (multiplier annualPremium : ℚ) (strategy : FinancialStrategy)
    (method : MultiplierMethod) (benefits : Benefits) (daPercent : ℚ)
    (cityType : CityType) (level : String) (specialAllowance : ℚ) (isTPTACity : Bool)
    (hraConfig : Option HraConfig) (premiumRange : Option PositionPremiumRange)
    (cap : PositionSalaryCap) (h1 : 0 < cap.maxWPUSalaryAnnual)
    (h2 : cap.maxWPUSalaryAnnual <
      (calculateWPUSalary ugcSalary multiplier annualPremium strategy method benefits
        daPercent cityType level specialAllowance isTPTACity hraConfig
        EnforcementMode.hard premiumRange
        (Option.some cap)).enforcement.originalSalaryAnnual) :
    (calculateWPUSalary ugcSalary multiplier annualPremium strategy method benefits
      daPercent cityType level specialAllowance isTPTACity hraConfig
      EnforcementMode.hard premiumRange
      (Option.some cap)).enforcement.salaryCapped = true
    ∧ (calculateWPUSalary ugcSalary multiplier annualPremium strategy method benefits
      daPercent cityType level specialAllowance isTPTACity hraConfig
      EnforcementMode.hard premiumRange (Option.some cap)).totalSalaryAnnual =
      jsRound (cap.maxWPUSalaryAnnual / 12) * 12 := by
  have h2' : cap.maxWPUSalaryAnnual <
      (wpuStrategyOutcome ugcSalary multiplier annualPremium strategy method daPercent
        cityType level specialAllowance isTPTACity hraConfig).totalSalaryMonthly * 12 := h2
  obtain ⟨e1, e2⟩ := enforceCaps_hard_capped
    (wpuStrategyOutcome ugcSalary multiplier annualPremium strategy method daPercent
      cityType level specialAllowance isTPTACity hraConfig).totalSalaryMonthly
    (calculateBenefits (wpuStrategyOutcome ugcSalary multiplier annualPremium strategy
      method daPercent cityType level specialAllowance isTPTACity
      hraConfig).comps.wpuBasic benefits) cap h1 h2'
  refine ⟨e1, ?_⟩
  show (enforceCaps
    (wpuStrategyOutcome ugcSalary multiplier annualPremium strategy method daPercent
      cityType level specialAllowance isTPTACity hraConfig).totalSalaryMonthly
    (calculateBenefits (wpuStrategyOutcome ugcSalary multiplier annualPremium strategy
      method daPercent cityType level specialAllowance isTPTACity
      hraConfig).comps.wpuBasic benefits) EnforcementMode.hard
    (Option.some cap)).totalSalaryMonthly * 12 = jsRound (cap.maxWPUSalaryAnnual / 12) * 12
  rw [e2]

/-- Witness for C2 (amended) at the counterexample input. -/
theorem wpu_hard_cap_clamps_to_rounded_max_witness :
    (calculateWPUSalary ⟨0, 0, 0, HraMode.percent, 0, 0, 216667, 0⟩ 1 0
      FinancialStrategy.premium MultiplierMethod.methodA ⟨0, 0, 0, 0, 0⟩ 0 CityType.Z
      "10" 0 false Option.none EnforcementMode.hard Option.none
      (Option.some ⟨0, 2300000, 0⟩)).enforcement.salaryCapped = true
    ∧ (calculateWPUSalary ⟨0, 0, 0, HraMode.percent, 0, 0, 216667, 0⟩ 1 0
      FinancialStrategy.premium MultiplierMethod.methodA ⟨0, 0, 0, 0, 0⟩ 0 CityType.Z
      "10" 0 false Option.none EnforcementMode.hard Option.none
      (Option.some ⟨0, 2300000, 0⟩)).totalSalaryAnnual =
      jsRound ((2300000 : ℚ) / 12) * 12 :=
  wpu_hard_cap_clamps_to_rounded_max ⟨0, 0, 0, HraMode.percent, 0, 0, 216667, 0⟩ 1 0
    FinancialStrategy.premium MultiplierMethod.methodA ⟨0, 0, 0, 0, 0⟩ 0 CityType.Z
    "10" 0 false Option.none Option.none ⟨0, 2300000, 0⟩ (by norm_num)
    (by norm_num +decide [calculateWPUSalary, wpuStrategyOutcome, wpuMethodComponents,
      calculateDA, calculateHRA, jsRound, HRA_RATES, enforceCaps, calculateBenefits])

theorem enforceCaps_mono (preL preH : ℚ) (bbL bbH : BenefitsBreakdown)
    (mode : EnforcementMode) (salaryCap : Option PositionSalaryCap)
    (hpre : preL ≤ preH) (zL : ℤ) (hzL : preL * 12 = 12 * zL) :
    (enforceCaps preL bbL mode salaryCap).totalSalaryMonthly ≤
    (enforceCaps preH bbH mode salaryCap).totalSalaryMonthly := by
  cases salaryCap with
  | none => exact hpre
  | some c =>
    cases mode with
    | soft =>
        rw [enforceCaps_totalSalaryMonthly_soft, enforceCaps_totalSalaryMonthly_soft]
        exact hpre
    | hard =>
        rw [enforceCaps_totalSalaryMonthly_hard, enforceCaps_totalSalaryMonthly_hard]
        by_cases hcL : 0 < c.maxWPUSalaryAnnual ∧ c.maxWPUSalaryAnnual < preL * 12
        · rw [if_pos hcL, if_pos ⟨hcL.1, lt_of_lt_of_le hcL.2 (by linarith)⟩]
        · rw [if_neg hcL]
          by_cases hcH : 0 < c.maxWPUSalaryAnnual ∧ c.maxWPUSalaryAnnual < preH * 12
          · rw [if_pos hcH]
            have hple : preL * 12 ≤ c.maxWPUSalaryAnnual := by
              by_contra hlt
              exact hcL ⟨hcH.1, not_le.mp hlt⟩
            have hpz : preL = (zL : ℚ) := by linarith
            rw [hpz]
            exact int_le_jsRound zL _ ((le_div_iff (by norm_num)).mpr (by linarith))
          · rw [if_neg hcH]
            exact hpre

/-- C5 (counterexample): with a fractional lump-sum HRA, hard enforcement and
a salary cap of 17, the `higher` strategy's final monthly total (clamped to
`round(17/12) = 1`) is strictly below the `lower` strategy's final monthly
total (7/5, not capped). -/
theorem wpu_higher_lt_lower_example :
    (calculateWPUSalary ⟨0, 0, 0, HraMode.percent, 0, 0, 24, 288⟩ 1 0
      FinancialStrategy.higher MultiplierMethod.methodA ⟨0, 0, 0, 0, 0⟩ 0 CityType.Z
      "10" 0 false (Option.some ⟨false, true, SettingsHraMode.lumpsum, 7/5⟩)
      EnforcementMode.hard Option.none
      (Option.some ⟨0, 17, 0⟩)).totalSalaryMonthly <
    (calculateWPUSalary ⟨0, 0, 0, HraMode.percent, 0, 0, 24, 288⟩ 1 0
      FinancialStrategy.lower MultiplierMethod.methodA ⟨0, 0, 0, 0, 0⟩ 0 CityType.Z
      "10" 0 false (Option.some ⟨false, true, SettingsHraMode.lumpsum, 7/5⟩)
      EnforcementMode.hard Option.none
      (Option.some ⟨0, 17, 0⟩)).totalSalaryMonthly := by
  have e1 : (calculateWPUSalary ⟨0, 0, 0, HraMode.percent, 0, 0, 24, 288⟩ 1 0
      FinancialStrategy.higher MultiplierMethod.methodA ⟨0, 0, 0, 0, 0⟩ 0 CityType.Z
      "10" 0 false (Option.some ⟨false, true, SettingsHraMode.lumpsum, 7/5⟩)
      EnforcementMode.hard Option.none
      (Option.some ⟨0, 17, 0⟩)).totalSalaryMonthly = 1 := by
    norm_num +decide [calculateWPUSalary, wpuStrategyOutcome, wpuMethodComponents,
      calculateDA, calculateHRA, jsRound, HRA_RATES, enforceCaps, calculateBenefits]
  have e2 : (calculateWPUSalary ⟨0, 0, 0, HraMode.percent, 0, 0, 24, 288⟩ 1 0
      FinancialStrategy.lower MultiplierMethod.methodA ⟨0, 0, 0, 0, 0⟩ 0 CityType.Z
      "10" 0 false (Option.some ⟨false, true, SettingsHraMode.lumpsum, 7/5⟩)
      EnforcementMode.hard Option.none
      (Option.some ⟨0, 17, 0⟩)).totalSalaryMonthly = 7/5 := by
    norm_num +decide [calculateWPUSalary, wpuStrategyOutcome, wpuMethodComponents,
      calculateDA, calculateHRA, jsRound, HRA_RATES, enforceCaps, calculateBenefits]
  rw [e1, e2]
  norm_num

/-- C5 (amended): for identical inputs, the `higher` strategy's final monthly
total is at least the `lower` strategy's, provided each call's pre-clamp
monthly total is an integer (as it is whenever all monetary inputs are whole
rupee amounts); with fractional inputs hard-mode clamping can reverse the
order. -/
theorem wpu_higher_ge_lower_of_integer_totals (ugcSalary : UGCSalaryBreakdown)
    (multiplier annualPremium : ℚ) (method : MultiplierMethod) (benefits : Benefits)
    (daPercent : ℚ) (cityType : CityType) (level : String) (specialAllowance : ℚ)
    (isTPTACity : Bool) (hraConfig : Option HraConfig)
    (enforcementMode : EnforcementMode) (premiumRange : Option PositionPremiumRange)
    (salaryCap : Option PositionSalaryCap)
    (hL : ∃ z : ℤ, (calculateWPUSalary ugcSalary multiplier annualPremium
      FinancialStrategy.lower method benefits daPercent cityType level specialAllowance
      isTPTACity hraConfig enforcementMode premiumRange
      salaryCap).enforcement.originalSalaryAnnual = 12 * z)
    (hH : ∃ z : ℤ, (calculateWPUSalary ugcSalary multiplier annualPremium
      FinancialStrategy.higher method benefits daPercent cityType level specialAllowance
      isTPTACity hraConfig enforcementMode premiumRange
      salaryCap).enforcement.originalSalaryAnnual = 12 * z) :
    (calculateWPUSalary ugcSalary multiplier annualPremium FinancialStrategy.lower
      method benefits daPercent cityType level specialAllowance isTPTACity hraConfig
      enforcementMode premiumRange salaryCap).totalSalaryMonthly ≤
    (calculateWPUSalary ugcSalary multiplier annualPremium FinancialStrategy.higher
      method benefits daPercent cityType level specialAllowance isTPTACity hraConfig
      enforcementMode premiumRange salaryCap).totalSalaryMonthly := by
  obtain ⟨zL, hzL⟩ := hL
  have hzL' : (wpuStrategyOutcome ugcSalary multiplier annualPremium
      FinancialStrategy.lower method daPercent cityType level specialAllowance
      isTPTACity hraConfig).totalSalaryMonthly * 12 = 12 * zL := hzL
  exact enforceCaps_mono _ _ _ _ enforcementMode salaryCap
    (strategyOutcome_lower_le_higher ugcSalary multiplier annualPremium method daPercent
      cityType level specialAllowance isTPTACity hraConfig) zL hzL'

/-- Witness for C5 (amended) at an all-zero input in hard mode. -/
theorem wpu_higher_ge_lower_of_integer_totals_witness :
    (calculateWPUSalary ⟨0, 0, 0, HraMode.percent, 0, 0, 0, 0⟩ 1 0
      FinancialStrategy.lower MultiplierMethod.methodA ⟨0, 0, 0, 0, 0⟩ 0 CityType.Z
      "10" 0 false Option.none EnforcementMode.hard Option.none
      Option.none).totalSalaryMonthly ≤
    (calculateWPUSalary ⟨0, 0, 0, HraMode.percent, 0, 0, 0, 0⟩ 1 0
      FinancialStrategy.higher MultiplierMethod.methodA ⟨0, 0, 0, 0, 0⟩ 0 CityType.Z
      "10" 0 false Option.none EnforcementMode.hard Option.none
      Option.none).totalSalaryMonthly :=
  wpu_higher_ge_lower_of_integer_totals ⟨0, 0, 0, HraMode.percent, 0, 0, 0, 0⟩ 1 0
    MultiplierMethod.methodA ⟨0, 0, 0, 0, 0⟩ 0 CityType.Z "10" 0 false Option.none
    EnforcementMode.hard Option.none Option.none
    ⟨0, by norm_num +decide [calculateWPUSalary, wpuStrategyOutcome,
      wpuMethodComponents, calculateDA, calculateHRA, jsRound, HRA_RATES, enforceCaps,
      calculateBenefits]⟩
    ⟨0, by norm_num +decide [calculateWPUSalary, wpuStrategyOutcome,
      wpuMethodComponents, calculateDA, calculateHRA, jsRound, HRA_RATES, enforceCaps,
      calculateBenefits]⟩

/-- C6 (counterexample): the multiplicative bonus is JavaScript `Math.round`
of `basic * (multiplier - 1)`, which is round-half-up, not round half away
from zero: at basic 1 and multiplier 1/2 the product is -1/2, the code
reports bonus 0 while round-half-away-from-zero gives -1. -/
theorem multiplier_bonus_not_half_away_from_zero :
    (calculateWPUSalary ⟨1, 0, 0, HraMode.percent, 0, 0, 1, 12⟩ (1/2) 0
      FinancialStrategy.multiplier MultiplierMethod.methodA ⟨0, 0, 0, 0, 0⟩ 0
      CityType.Z "10" 0 false (Option.some ⟨true, false, SettingsHraMode.percent, 0⟩)
      EnforcementMode.soft Option.none Option.none).multiplierBonus = 0
    ∧ roundHalfAwayFromZero ((1 : ℚ) * (1/2 - 1)) = -1
    ∧ (0 : ℚ) ≠ -1 := by
  refine ⟨?_, ?_, by norm_num⟩
  · norm_num +decide [calculateWPUSalary, wpuStrategyOutcome, wpuMethodComponents,
      calculateHRA, jsRound, enforceCaps, calculateBenefits]
  · norm_num [roundHalfAwayFromZero]

/-- C6 (amended): every intermediate rounding step applies JavaScript
`Math.round`, i.e. `x ↦ ⌊x + 1/2⌋` (round half toward positive infinity),
which agrees with round-half-away-from-zero on nonnegative arguments; in
particular the multiplicative bonus is `jsRound` of `basic * (multiplier - 1)`
for every basic pay and every (unconstrained) multiplier. -/
theorem wpu_rounding_is_half_up (basic multiplier q : ℚ) (hq : 0 ≤ q) :
    (calculateWPUSalary ⟨basic, 0, 0, HraMode.percent, 0, 0, basic, basic * 12⟩
      multiplier 0 FinancialStrategy.multiplier MultiplierMethod.methodA ⟨0, 0, 0, 0, 0⟩
      0 CityType.Z "10" 0 false
      (Option.some ⟨true, false, SettingsHraMode.percent, 0⟩) EnforcementMode.soft
      Option.none Option.none).multiplierBonus = jsRound (basic * (multiplier - 1))
    ∧ calculateDA basic q = jsRound (basic * (q / 100))
    ∧ jsRound q = roundHalfAwayFromZero q := by
  refine ⟨?_, rfl, ?_⟩
  · show jsRound ((basic + 0 + 0 + 0 + 0) * (multiplier - 1)) = _
    norm_num
  · rw [roundHalfAwayFromZero, if_pos hq]
    rfl

/-- Witness for C6 (amended) at basic 2, multiplier 3/2, q = 5/2. -/
theorem wpu_rounding_is_half_up_witness :
    (calculateWPUSalary ⟨2, 0, 0, HraMode.percent, 0, 0, 2, 2 * 12⟩ (3/2) 0
      FinancialStrategy.multiplier MultiplierMethod.methodA ⟨0, 0, 0, 0, 0⟩
      0 CityType.Z "10" 0 false
      (Option.some ⟨true, false, SettingsHraMode.percent, 0⟩) EnforcementMode.soft
      Option.none Option.none).multiplierBonus = jsRound (2 * ((3:ℚ)/2 - 1))
    ∧ calculateDA 2 (5/2) = jsRound (2 * ((5:ℚ)/2 / 100))
    ∧ jsRound ((5:ℚ)/2) = roundHalfAwayFromZero ((5:ℚ)/2) :=
  wpu_rounding_is_half_up 2 (3/2) (5/2) (by norm_num)

/-- The percentage field of the comparison, before the guard is resolved. -/
theorem comparison_premiumPercentage_def (level : String) (cellIndex : ℤ)
    (daPercent : ℚ) (cityType : CityType) (multiplier annualPremium : ℚ)
    (strategy : FinancialStrategy) (method : MultiplierMethod) (benefits : Benefits)
    (specialAllowance : ℚ) (isTPTACity : Bool) (hraConfig : Option HraConfig)
    (enforcementMode : EnforcementMode) (premiumRange : Option PositionPremiumRange)
    (salaryCap : Option PositionSalaryCap) :
    (calculateComparison level cellIndex daPercent cityType multiplier annualPremium
      strategy method benefits specialAllowance isTPTACity hraConfig enforcementMode
      premiumRange salaryCap).premiumPercentage =
    (if 0 < (calculateComparison level cellIndex daPercent cityType multiplier
        annualPremium strategy method benefits specialAllowance isTPTACity hraConfig
        enforcementMode premiumRange salaryCap).ugc.totalMonthly
     then (calculateComparison level cellIndex daPercent cityType multiplier
        annualPremium strategy method benefits specialAllowance isTPTACity hraConfig
        enforcementMode premiumRange salaryCap).premiumAmountMonthly /
       (calculateComparison level cellIndex daPercent cityType multiplier annualPremium
        strategy method benefits specialAllowance isTPTACity hraConfig enforcementMode
        premiumRange salaryCap).ugc.totalMonthly * 100
     else 0) := rfl

/-- C7 (counterexample): with dearness percent -300 the baseline monthly
total is -111060 (nonzero), the code returns premiumPercentage 0 because the
guard tests for a positive total, while the claimed formula gives a nonzero
value. -/
theorem premium_percentage_negative_baseline_example :
    (calculateComparison "10" 0 (-300) CityType.Y 1 12 FinancialStrategy.premium
      MultiplierMethod.methodA ⟨0, 0, 0, 0, 0⟩ 0 false Option.none
      EnforcementMode.soft Option.none Option.none).ugc.totalMonthly = -111060
    ∧ (calculateComparison "10" 0 (-300) CityType.Y 1 12 FinancialStrategy.premium
      MultiplierMethod.methodA ⟨0, 0, 0, 0, 0⟩ 0 false Option.none
      EnforcementMode.soft Option.none Option.none).premiumAmountMonthly = 1
    ∧ (calculateComparison "10" 0 (-300) CityType.Y 1 12 FinancialStrategy.premium
      MultiplierMethod.methodA ⟨0, 0, 0, 0, 0⟩ 0 false Option.none
      EnforcementMode.soft Option.none Option.none).premiumPercentage = 0
    ∧ (calculateComparison "10" 0 (-300) CityType.Y 1 12 FinancialStrategy.premium
      MultiplierMethod.methodA ⟨0, 0, 0, 0, 0⟩ 0 false Option.none
      EnforcementMode.soft Option.none Option.none).premiumPercentage ≠
      ((1 : ℚ) / (-111060)) * 100 := by
  refine ⟨?_, ?_, ?_, ?_⟩ <;>
  norm_num +decide [calculateComparison, calculateWPUSalary, wpuStrategyOutcome,
    wpuMethodComponents, calculateUGCSalary, calculateDA, calculateHRA, calculateTA,
    jsRound, jsParseInt, leadingNat, leadingNatAux, HRA_RATES, TA_RATES, getCellAmount,
    PAY_MATRIX, enforceCaps, calculateBenefits]

/-- C7 (amended): the comparison's premiumPercentage equals
`premiumAmountMonthly / baseline.totalMonthly * 100` whenever the baseline
monthly total is positive, and is 0 whenever the baseline monthly total is
zero or negative (the guard tests `> 0`). -/
theorem premium_percentage_guard (level : String) (cellIndex : ℤ) (daPercent : ℚ)
    (cityType : CityType) (multiplier annualPremium : ℚ) (strategy : FinancialStrategy)
    (method : MultiplierMethod) (benefits : Benefits) (specialAllowance : ℚ)
    (isTPTACity : Bool) (hraConfig : Option HraConfig) (enforcementMode : EnforcementMode)
    (premiumRange : Option PositionPremiumRange) (salaryCap : Option PositionSalaryCap) :
    ((calculateComparison level cellIndex daPercent cityType multiplier annualPremium
      strategy method benefits specialAllowance isTPTACity hraConfig enforcementMode
      premiumRange salaryCap).ugc.totalMonthly ≤ 0 →
      (calculateComparison level cellIndex daPercent cityType multiplier annualPremium
        strategy method benefits specialAllowance isTPTACity hraConfig enforcementMode
        premiumRange salaryCap).premiumPercentage = 0)
    ∧ (0 < (calculateComparison level cellIndex daPercent cityType multiplier
        annualPremium strategy method benefits specialAllowance isTPTACity hraConfig
        enforcementMode premiumRange salaryCap).ugc.totalMonthly →
      (calculateComparison level cellIndex daPercent cityType multiplier annualPremium
        strategy method benefits specialAllowance isTPTACity hraConfig enforcementMode
        premiumRange salaryCap).premiumPercentage =
      (calculateComparison level cellIndex daPercent cityType multiplier annualPremium
        strategy method benefits specialAllowance isTPTACity hraConfig enforcementMode
        premiumRange salaryCap).premiumAmountMonthly /
      (calculateComparison level cellIndex daPercent cityType multiplier annualPremium
        strategy method benefits specialAllowance isTPTACity hraConfig enforcementMode
        premiumRange salaryCap).ugc.totalMonthly * 100) := by
  constructor
  · intro h
    rw [comparison_premiumPercentage_def, if_neg (not_lt.mpr h)]
  · intro h
    rw [comparison_premiumPercentage_def, if_pos h]

/-- Witness for C7 (amended) at the scenario-1 baseline (monthly total
108394 > 0). -/
theorem premium_percentage_guard_witness :
    (calculateComparison "10" 0 58 CityType.Y 1 0 FinancialStrategy.premium
      MultiplierMethod.methodA ⟨0, 0, 0, 0, 0⟩ 0 false Option.none
      EnforcementMode.soft Option.none Option.none).premiumPercentage =
    (calculateComparison "10" 0 58 CityType.Y 1 0 FinancialStrategy.premium
      MultiplierMethod.methodA ⟨0, 0, 0, 0, 0⟩ 0 false Option.none
      EnforcementMode.soft Option.none Option.none).premiumAmountMonthly /
    (calculateComparison "10" 0 58 CityType.Y 1 0 FinancialStrategy.premium
      MultiplierMethod.methodA ⟨0, 0, 0, 0, 0⟩ 0 false Option.none
      EnforcementMode.soft Option.none Option.none).ugc.totalMonthly * 100 :=
  (premium_percentage_guard "10" 0 58 CityType.Y 1 0 FinancialStrategy.premium
    MultiplierMethod.methodA ⟨0, 0, 0, 0, 0⟩ 0 false Option.none
    EnforcementMode.soft Option.none Option.none).2
    (by norm_num +decide [calculateComparison, calculateUGCSalary, calculateDA,
      calculateHRA, calculateTA, jsRound, jsParseInt, leadingNat, leadingNatAux,
      HRA_RATES, TA_RATES, getCellAmount, PAY_MATRIX])

end SalaryDashboard
